import Mathlib

/-!
Verification of the E2E test-runner core of the Assistant-Skills repository.

Two Python modules are embedded shallowly:
* `SkillTest` — skills/demo-scaffolding/templates/demo-container/skill-test.py
  (prompt-spec parser, streaming driver, tool/text assertion validator).
* `E2E` — tests/e2e/runner.py (plain-text driver, output validator,
  test/suite orchestrator, summary/exit-code logic).

External effects (subprocess execution, the YAML and JSON libraries, the
filesystem and `os.environ`) are modelled as explicit inputs: a subprocess run
is a value of an outcome type, a JSON line is either a decoded event or an
undecodable line, the environment is a lookup function, and float durations
are carried as opaque integer values (no arithmetic is performed on them).
All Python string/list manipulation that the claims depend on is translated
directly.
-/

namespace SkillTest

/-- Payload of a tool invocation (Python `dict[str, Any]`); carried through
unchanged by the code, so modelled as an association list. -/
abbrev ToolInput := List (String × String)

/-- Dataclass `ToolExpectations` (skill-test.py). -/
structure ToolExpectations where
  must_call : List String := []
  must_not_call : List String := []
  match_mode : String := "all"
deriving DecidableEq, Repr

/-- Dataclass `TextExpectations` (skill-test.py). -/
structure TextExpectations where
  must_contain : List String := []
  must_not_contain : List String := []
deriving DecidableEq, Repr

/-- Dataclass `Expectations` (skill-test.py). -/
structure Expectations where
  tools : ToolExpectations := {}
  text : TextExpectations := {}
  semantic : String := ""
deriving DecidableEq, Repr

/-- Dataclass `PromptSpec` (skill-test.py). -/
structure PromptSpec where
  prompt : String
  expect : Expectations
  index : Nat := 0
deriving DecidableEq, Repr

/-- Dataclass `ToolCall` (skill-test.py). -/
structure ToolCall where
  name : String
  input : ToolInput
  output : String := ""
deriving DecidableEq, Repr

/-- Dataclass `PromptResult` (skill-test.py). -/
structure PromptResult where
  spec : PromptSpec
  response_text : String
  tools_called : List ToolCall
  exit_code : Int
  tool_assertions : List (String × Bool × String)
  text_assertions : List (String × Bool × String)
  quality : String := ""
  tool_accuracy : String := ""
  reasoning : String := ""
  passed : Bool := false
deriving DecidableEq, Repr

/-- A single-quote character, written by code point to reproduce Python
`repr` output for strings. -/
def pyQuote : String := "\x27"

/-- Python `repr` of a string (as it appears inside a formatted list). -/
def pyStrRepr (s : String) : String := pyQuote ++ s ++ pyQuote

/-- Python `str` of a `list[str]`, as produced by f-string interpolation,
e.g. `f"called: \x7bcalled_names\x7d"`. -/
def pyListRepr (xs : List String) : String :=
  "[" ++ String.intercalate ", " (xs.map pyStrRepr) ++ "]"

/-- Python substring membership `needle in hay` on character lists. -/
def hasSubList (n : List Char) : List Char → Bool
  | [] => n.isEmpty
  | c :: rest => n.isPrefixOf (c :: rest) || hasSubList n rest

/-- Python `needle in hay` for strings. -/
def strIn (needle hay : String) : Bool := hasSubList needle.data hay.data

/-- `run_tool_assertions` (skill-test.py lines 331-364). -/
def run_tool_assertions (tools_called : List ToolCall)
    (expectations : ToolExpectations) : List (String × Bool × String) :=
  let called_names := tools_called.map (·.name)
  let mustRows :=
    if expectations.match_mode = "all" then
      expectations.must_call.map fun tool =>
        let passed := called_names.contains tool
        ("must_call: " ++ tool, passed,
          if passed then "" else "called: " ++ pyListRepr called_names)
    else if expectations.match_mode = "any" then
      if expectations.must_call.isEmpty then []
      else
        let any_called := expectations.must_call.any fun t => called_names.contains t
        [("must_call (any): " ++ pyListRepr expectations.must_call, any_called,
          if any_called then "" else "called: " ++ pyListRepr called_names)]
    else []
  let notRows := expectations.must_not_call.map fun tool =>
    let passed := !(called_names.contains tool)
    ("must_not_call: " ++ tool, passed, if passed then "" else "but was called")
  mustRows ++ notRows

/-- `run_text_assertions` (skill-test.py lines 367-393). -/
def run_text_assertions (response_text : String)
    (expectations : TextExpectations) : List (String × Bool × String) :=
  let text_lower := response_text.toLower
  let containRows := expectations.must_contain.map fun pat =>
    let passed := strIn pat.toLower text_lower
    ("must_contain: " ++ pyQuote ++ pat ++ pyQuote, passed,
      if passed then "" else "not found in response")
  let notContainRows := expectations.must_not_contain.map fun pat =>
    let passed := !(strIn pat.toLower text_lower)
    ("must_not_contain: " ++ pyQuote ++ pat ++ pyQuote, passed,
      if passed then "" else "found in response")
  containRows ++ notContainRows

/-- Assembly of one `PromptResult` inside `run_skill_test`
(skill-test.py lines 487-503): run both assertion groups and derive the
pass flag as the conjunction over both lists. -/
def buildPromptResult (spec : PromptSpec) (response_text : String)
    (tools_called : List ToolCall) (exit_code : Int) : PromptResult :=
  let tool_assertions := run_tool_assertions tools_called spec.expect.tools
  let text_assertions := run_text_assertions response_text spec.expect.text
  { spec, response_text, tools_called, exit_code, tool_assertions, text_assertions,
    passed := tool_assertions.all (fun a => a.2.1) && text_assertions.all (fun a => a.2.1) }

/-- Observed tool calls `{A, B}` used by the match-mode scenario. -/
def obsAB : List ToolCall := [{ name := "A", input := [] }, { name := "B", input := [] }]

/-- C1: tool-assertion match-mode semantics. Under `match_mode=all` the
validator emits one independent row per `must_call` name, passing iff that
name appears among the observed tool-call names; under `match_mode=any` with a
non-empty `must_call` it emits a single aggregate row that passes iff at least
one listed name appears, with all observed names as the failure detail.
Concretely, for observed calls `{A, B}`: `must_call [A, B]` with `all` passes;
`must_call [A, C]` with `all` fails with exactly one failing row (for C);
`must_call [C, A]` with `any` passes. -/
theorem c1_match_mode_semantics :
    (∀ (tc : List ToolCall) (mc : List String),
      run_tool_assertions tc { must_call := mc, must_not_call := [], match_mode := "all" } =
        mc.map fun tool =>
          ("must_call: " ++ tool, (tc.map (·.name)).contains tool,
            if (tc.map (·.name)).contains tool then ""
            else "called: " ++ pyListRepr (tc.map (·.name)))) ∧
    (∀ (tc : List ToolCall) (m : String) (ms : List String),
      run_tool_assertions tc { must_call := m :: ms, must_not_call := [], match_mode := "any" } =
        [("must_call (any): " ++ pyListRepr (m :: ms),
          (m :: ms).any (fun t => (tc.map (·.name)).contains t),
          if (m :: ms).any (fun t => (tc.map (·.name)).contains t) then ""
          else "called: " ++ pyListRepr (tc.map (·.name)))]) ∧
    (run_tool_assertions obsAB
        { must_call := ["A", "B"], must_not_call := [], match_mode := "all" }).all
      (fun a => a.2.1) = true ∧
    ((run_tool_assertions obsAB
        { must_call := ["A", "C"], must_not_call := [], match_mode := "all" }).filter
      (fun a => !a.2.1)) =
      [("must_call: C", false,
        "called: " ++ pyListRepr ["A", "B"])] ∧
    (run_tool_assertions obsAB
        { must_call := ["C", "A"], must_not_call := [], match_mode := "any" }).all
      (fun a => a.2.1) = true := by
  refine ⟨fun tc mc => ?_, fun tc m ms => ?_, rfl, rfl, rfl⟩
  · simp [run_tool_assertions]
  · simp [run_tool_assertions]

/-- C2: vacuous expectations pass. For a `PromptSpec` whose `Expectations`
has no fields set, the assembled `PromptResult` has empty assertion lists and
`passed = true`, regardless of response text and captured tool calls. -/
theorem c2_vacuous_expectations_pass (prompt : String) (idx : Nat)
    (response_text : String) (tools_called : List ToolCall) (exit_code : Int) :
    (buildPromptResult { prompt := prompt, expect := {}, index := idx }
        response_text tools_called exit_code).tool_assertions = [] ∧
    (buildPromptResult { prompt := prompt, expect := {}, index := idx }
        response_text tools_called exit_code).text_assertions = [] ∧
    (buildPromptResult { prompt := prompt, expect := {}, index := idx }
        response_text tools_called exit_code).passed = true :=
  ⟨rfl, rfl, rfl⟩

/-- One content block of an `assistant` event in the stream-json protocol
(skill-test.py lines 311-322): a `text` block, a `tool_use` block carrying
name and input payload, or a block of any other type (ignored). -/
inductive ContentBlock where
  | text (s : String)
  | tool_use (name : String) (input : ToolInput)
  | other
deriving DecidableEq, Repr

/-- One decoded stream-json event (skill-test.py lines 305-326): an
`assistant` event with content blocks, a `result` event with its result
string, or an event of any other type (ignored). -/
inductive StreamEvent where
  | assistant (content : List ContentBlock)
  | result (res : String)
  | other
deriving DecidableEq, Repr

/-- Accumulator of the streaming loop in `run_claude_prompt`:
`response_text` plus the ordered list `tools_called`. -/
structure StreamState where
  response_text : String
  tools_called : List ToolCall
deriving DecidableEq, Repr

/-- Handling of one content block (skill-test.py lines 311-322). -/
def processBlock (st : StreamState) (b : ContentBlock) : StreamState :=
  match b with
  | .text s => { st with response_text := st.response_text ++ s }
  | .tool_use n inp => { st with tools_called := st.tools_called ++ [{ name := n, input := inp }] }
  | .other => st

/-- Handling of one decoded event (skill-test.py lines 305-326): `assistant`
events are processed block by block; a `result` event supplies its result
string as the response text only when nothing has been accumulated yet;
unknown event types are ignored. -/
def processEvent (st : StreamState) (e : StreamEvent) : StreamState :=
  match e with
  | .assistant blocks => blocks.foldl processBlock st
  | .result res => if st.response_text = "" then { st with response_text := res } else st
  | .other => st

/-- Handling of one stdout line (skill-test.py lines 296-303): a line is
either decoded into an event by `json.loads` or skipped (`none` stands for an
empty or undecodable line — the decoder itself is the external `json`
library). -/
def processLine (st : StreamState) (line : Option StreamEvent) : StreamState :=
  match line with
  | none => st
  | some e => processEvent st e

/-- The whole decode loop of `run_claude_prompt` over the subprocess stdout
lines, starting from an empty accumulator. -/
def processLines (lines : List (Option StreamEvent)) : StreamState :=
  lines.foldl processLine { response_text := "", tools_called := [] }

/-- Text contributed by one content block. -/
def blockText : ContentBlock → String
  | .text s => s
  | _ => ""

/-- Concatenated text of a list of content blocks, in order. -/
def blocksText : List ContentBlock → String
  | [] => ""
  | b :: bs => blockText b ++ blocksText bs

/-- Tool calls contributed by a list of content blocks, in order. -/
def blocksToolCalls (bs : List ContentBlock) : List ToolCall :=
  bs.filterMap fun b =>
    match b with
    | .tool_use n inp => some { name := n, input := inp }
    | _ => none

/-- Tool calls contributed by one decoded event. -/
def eventToolCalls : StreamEvent → List ToolCall
  | .assistant bs => blocksToolCalls bs
  | _ => []

theorem processBlock_foldl (blocks : List ContentBlock) (st : StreamState) :
    (blocks.foldl processBlock st).response_text = st.response_text ++ blocksText blocks ∧
    (blocks.foldl processBlock st).tools_called = st.tools_called ++ blocksToolCalls blocks := by
  induction blocks generalizing st with
  | nil => simp [blocksText, blocksToolCalls]
  | cons b bs ih =>
    cases b with
    | text s =>
      simp only [List.foldl_cons, processBlock, blocksText, blockText, blocksToolCalls,
        List.filterMap_cons]
      refine ⟨?_, (ih _).2⟩
      rw [(ih _).1, String.append_assoc]
    | tool_use n inp =>
      simp only [List.foldl_cons, processBlock, blocksText, blockText, blocksToolCalls,
        List.filterMap_cons]
      refine ⟨?_, ?_⟩
      · rw [(ih _).1, String.empty_append]
      · rw [(ih _).2, List.append_assoc]
        rfl
    | other =>
      simp only [List.foldl_cons, processBlock, blocksText, blockText, blocksToolCalls,
        List.filterMap_cons]
      refine ⟨?_, (ih _).2⟩
      rw [(ih _).1, String.empty_append]

theorem processLine_tools (st : StreamState) (line : Option StreamEvent) :
    (processLine st line).tools_called =
      st.tools_called ++ (line.map eventToolCalls).getD [] := by
  cases line with
  | none => simp [processLine]
  | some e =>
    cases e with
    | assistant bs =>
      simpa [processLine, processEvent, eventToolCalls] using (processBlock_foldl bs st).2
    | result res =>
      by_cases h : st.response_text = "" <;> simp [processLine, processEvent, eventToolCalls, h]
    | other => simp [processLine, processEvent, eventToolCalls]

theorem processLines_go_tools (lines : List (Option StreamEvent)) (st : StreamState) :
    (lines.foldl processLine st).tools_called =
      st.tools_called ++ (lines.filterMap id).flatMap eventToolCalls := by
  induction lines generalizing st with
  | nil => simp
  | cons l ls ih =>
    cases l with
    | none => simpa [processLine] using ih st
    | some e =>
      rw [List.foldl_cons, ih, List.filterMap_cons]
      simp only [Option.some.injEq, id]
      rw [List.flatMap_cons, ← List.append_assoc]
      congr 1
      simpa using processLine_tools st (some e)

/-- C5: streaming JSON-lines decode. Undecodable lines leave the accumulator
unchanged (skipped, never fatal); an `assistant` event appends its text
blocks, in order, to the accumulated response text and appends its `tool_use`
blocks, in order and with name and input payload, to the tool-call list; a
`result` event supplies its result string as the response text exactly when
no text was otherwise accumulated, and never alters the tool-call list; over
a whole stdout stream the captured tool calls are those of the decoded
events, in order. -/
theorem c5_streaming_decode :
    (∀ st : StreamState, processLine st none = st) ∧
    (∀ (st : StreamState) (blocks : List ContentBlock),
      (processEvent st (.assistant blocks)).response_text =
          st.response_text ++ blocksText blocks ∧
      (processEvent st (.assistant blocks)).tools_called =
          st.tools_called ++ blocksToolCalls blocks) ∧
    (∀ (st : StreamState) (res : String),
      (processEvent st (.result res)).response_text =
          (if st.response_text = "" then res else st.response_text) ∧
      (processEvent st (.result res)).tools_called = st.tools_called) ∧
    (∀ lines : List (Option StreamEvent),
      (processLines lines).tools_called = (lines.filterMap id).flatMap eventToolCalls) := by
  refine ⟨fun st => rfl, fun st blocks => processBlock_foldl blocks st,
    fun st res => ?_, fun lines => ?_⟩
  · constructor <;> by_cases h : st.response_text = "" <;> simp [processEvent, h]
  · simpa using processLines_go_tools lines { response_text := "", tools_called := [] }

/-- Outcome of the `subprocess.run` call inside `run_claude_prompt`
(skill-test.py lines 279-290): normal completion (stdout already split into
lines and decoded by the external `json` library — `none` for an empty or
undecodable line — plus the return code), expiry of the 300s timeout, or any
other exception while launching. -/
inductive SkillProcOutcome where
  | completed (stdoutLines : List (Option StreamEvent)) (returncode : Int)
  | timedOut
  | excFailed (msg : String)
deriving DecidableEq, Repr

/-- `run_claude_prompt` (skill-test.py lines 250-328) as a function of the
subprocess outcome; returns `(response_text, tools_called, exit_code,
duration)`. `elapsed` carries the wall-clock reading used in the duration
slot. Both the timeout and the exception handler return exit code `1`. -/
def run_claude_prompt (outcome : SkillProcOutcome) (elapsed : Int) :
    String × List ToolCall × Int × Int :=
  match outcome with
  | .timedOut => ("", [], 1, elapsed)
  | .excFailed _ => ("", [], 1, elapsed)
  | .completed lines rc =>
    let st := processLines lines
    (st.response_text, st.tools_called, rc, elapsed)

/-- Python whitespace class used by `str.strip`. -/
def pyWhitespace (c : Char) : Bool :=
  c = ' ' || c = '\t' || c = '\n' || c = '\r' || c = '\x0b' || c = '\x0c'

/-- Python `str.strip()` on a character list. -/
def pyStrip (s : List Char) : List Char :=
  ((s.dropWhile pyWhitespace).reverse.dropWhile pyWhitespace).reverse

/-- Python `str.strip()` on a string. -/
def pyStripS (s : String) : String := ⟨pyStrip s.data⟩

/-- Python `content.split("\x5cn---\x5cn")` (skill-test.py line 200): split on
every occurrence of the five-character delimiter, scanning left to right;
an empty input yields one empty chunk. -/
def splitDocs : List Char → List (List Char)
  | [] => [[]]
  | '\n' :: '-' :: '-' :: '-' :: '\n' :: rest => [] :: splitDocs rest
  | c :: rest =>
    match splitDocs rest with
    | [] => [[c]]
    | chunk :: chunks => (c :: chunk) :: chunks

/-- The `tools` mapping inside an `expect` mapping, as handed back by the
external YAML library; every key optional. -/
structure ToolsData where
  must_call : Option (List String) := none
  must_not_call : Option (List String) := none
  match_mode : Option String := none
deriving DecidableEq, Repr

/-- The `text` mapping inside an `expect` mapping. -/
structure TextData where
  must_contain : Option (List String) := none
  must_not_contain : Option (List String) := none
deriving DecidableEq, Repr

/-- The `expect` mapping of a parsed document. -/
structure ExpectData where
  tools : Option ToolsData := none
  text : Option TextData := none
  semantic : Option String := none
deriving DecidableEq, Repr

/-- One successfully YAML-parsed document: the keys `parse_prompts_file`
reads from it. -/
structure DocData where
  prompt : Option String := none
  expect : Option ExpectData := none
deriving DecidableEq, Repr

/-- Result of handing one document to the external `yaml.safe_load`:
a YAML error, a falsy value (`None`/empty mapping, modelled as
`loaded none`), or a truthy mapping. -/
inductive YamlOutcome where
  | yamlError (msg : String)
  | loaded (data : Option DocData)
deriving DecidableEq, Repr

/-- Field extraction of `parse_prompts_file` (skill-test.py lines 220-239):
every `expect` subfield is optional and defaults to empty/unset, `match_mode`
defaults to `"all"`. -/
def mkExpectations (expect : Option ExpectData) : Expectations :=
  let expect_data := expect.getD {}
  let tools_data := expect_data.tools.getD {}
  let text_data := expect_data.text.getD {}
  { tools :=
      { must_call := tools_data.must_call.getD [],
        must_not_call := tools_data.must_not_call.getD [],
        match_mode := tools_data.match_mode.getD "all" },
    text :=
      { must_contain := text_data.must_contain.getD [],
        must_not_contain := text_data.must_not_contain.getD [] },
    semantic := expect_data.semantic.getD "" }

/-- Handling of a YAML outcome for one document (skill-test.py lines
211-245): a YAML error is skipped after a warning, a falsy document or one
without a `prompt` key is skipped silently, a document with a `prompt` key
appends one spec whose index is the number of specs parsed so far. -/
def docOutcomeStep (specs : List PromptSpec) (outcome : YamlOutcome) : List PromptSpec :=
  match outcome with
  | .yamlError _ => specs
  | .loaded none => specs
  | .loaded (some data) =>
    match data.prompt with
    | none => specs
    | some p =>
      specs ++ [{ prompt := pyStripS p, expect := mkExpectations data.expect,
                  index := specs.length }]

/-- Handling of one raw document chunk (skill-test.py lines 203-245):
strip it, skip it when empty or a bare `---`, drop a leading `---` line,
then hand it to the YAML library. -/
def parseStep (yamlLoad : String → YamlOutcome) (specs : List PromptSpec)
    (rawDoc : List Char) : List PromptSpec :=
  let doc := pyStrip rawDoc
  if doc = [] ∨ doc = ['-', '-', '-'] then specs
  else
    let doc := if ['-', '-', '-', '\n'].isPrefixOf doc then doc.drop 4 else doc
    docOutcomeStep specs (yamlLoad ⟨doc⟩)

/-- `parse_prompts_file` (skill-test.py lines 197-247), with the external
YAML library abstracted as the `yamlLoad` argument. -/
def parse_prompts_file (yamlLoad : String → YamlOutcome) (content : String) :
    List PromptSpec :=
  (splitDocs content.data).foldl (parseStep yamlLoad) []

theorem docOutcomeStep_shape (specs : List PromptSpec) (outcome : YamlOutcome) :
    docOutcomeStep specs outcome = specs ∨
      ∃ s : PromptSpec, s.index = specs.length ∧
        docOutcomeStep specs outcome = specs ++ [s] := by
  cases outcome with
  | yamlError msg => exact Or.inl rfl
  | loaded data =>
    cases data with
    | none => exact Or.inl rfl
    | some d =>
      cases h : d.prompt with
      | none => exact Or.inl (by simp [docOutcomeStep, h])
      | some p =>
        exact Or.inr ⟨⟨pyStripS p, mkExpectations d.expect, specs.length⟩, rfl,
          by simp [docOutcomeStep, h]⟩

theorem parseStep_shape (yamlLoad : String → YamlOutcome) (specs : List PromptSpec)
    (rawDoc : List Char) :
    parseStep yamlLoad specs rawDoc = specs ∨
      ∃ s : PromptSpec, s.index = specs.length ∧
        parseStep yamlLoad specs rawDoc = specs ++ [s] := by
  by_cases hc : pyStrip rawDoc = [] ∨ pyStrip rawDoc = ['-', '-', '-']
  · exact Or.inl (by simp [parseStep, hc])
  · have hstep : parseStep yamlLoad specs rawDoc =
        docOutcomeStep specs (yamlLoad ⟨if ['-', '-', '-', '\n'].isPrefixOf (pyStrip rawDoc)
          then (pyStrip rawDoc).drop 4 else pyStrip rawDoc⟩) := by
      simp [parseStep, hc]
    rw [hstep]
    exact docOutcomeStep_shape specs _

/-- Every spec's `index` field equals its position in the list. -/
def indexAligned (xs : List PromptSpec) : Prop :=
  ∀ (i : Nat) (h : i < xs.length), xs[i].index = i

theorem indexAligned_append {xs : List PromptSpec} {s : PromptSpec}
    (hx : indexAligned xs) (hs : s.index = xs.length) : indexAligned (xs ++ [s]) := by
  intro i h
  rcases Nat.lt_or_ge i xs.length with h1 | h1
  · rw [List.getElem_append_left h1]
    exact hx i h1
  · have hlen : i = xs.length := by
      have : i < xs.length + 1 := by simpa using h
      omega
    subst hlen
    rw [List.getElem_concat_length xs s xs.length rfl h]
    exact hs

theorem parseFold_indexAligned (yamlLoad : String → YamlOutcome)
    (docs : List (List Char)) (xs : List PromptSpec) (hx : indexAligned xs) :
    indexAligned (docs.foldl (parseStep yamlLoad) xs) := by
  induction docs generalizing xs with
  | nil => exact hx
  | cons d ds ih =>
    rw [List.foldl_cons]
    apply ih
    rcases parseStep_shape yamlLoad xs d with h | ⟨s, hidx, h⟩
    · rw [h]; exact hx
    · rw [h]; exact indexAligned_append hx hidx

/-- C10: parser skip-and-renumber. YAML failures are skipped non-fatally and
parsing continues; falsy documents and documents without a `prompt` key are
skipped silently; a document with a `prompt` key yields exactly one spec
whose index is the count of specs parsed before it, so indices are the
0-based positions among the successfully parsed specs; an empty file yields
zero specs. -/
theorem c10_parser_skip_renumber :
    (∀ yamlLoad : String → YamlOutcome, parse_prompts_file yamlLoad "" = []) ∧
    (∀ (specs : List PromptSpec) (msg : String),
      docOutcomeStep specs (.yamlError msg) = specs) ∧
    (∀ (specs : List PromptSpec) (expect : Option ExpectData),
      docOutcomeStep specs (.loaded (some { prompt := none, expect := expect })) = specs) ∧
    (∀ (specs : List PromptSpec) (p : String) (expect : Option ExpectData),
      docOutcomeStep specs (.loaded (some { prompt := some p, expect := expect })) =
        specs ++ [{ prompt := pyStripS p, expect := mkExpectations expect,
                    index := specs.length }]) ∧
    (∀ (yamlLoad : String → YamlOutcome) (content : String) (i : Nat),
      (((parse_prompts_file yamlLoad content)[i]?).map PromptSpec.index).getD i = i) := by
  refine ⟨fun y => rfl, fun specs msg => rfl, fun specs e => rfl, fun specs p e => rfl,
    fun y content i => ?_⟩
  have ha : indexAligned (parse_prompts_file y content) :=
    parseFold_indexAligned y (splitDocs content.data) [] (fun i h => by simp at h)
  by_cases h : i < (parse_prompts_file y content).length
  · rw [List.getElem?_eq_getElem h]
    simpa using ha i h
  · rw [List.getElem?_eq_none (Nat.le_of_not_lt h)]
    rfl

end SkillTest

namespace E2E

open SkillTest (strIn pyQuote pyListRepr)

/-- `TestStatus` (runner.py lines 74-79). -/
inductive TestStatus where
  | passed
  | failed
  | skipped
  | error
  | timeout
deriving DecidableEq, Repr

/-- The outcome dict of `TestCaseValidator.validate` (runner.py lines
366-370): pass flag, failure messages, and the detail keys that were set
(their value is always `True`, so only the ordered key set is kept). -/
structure ValidationOutcome where
  passed : Bool
  failures : List String
  details : List String
deriving DecidableEq, Repr

/-- The `details` dict stored on a `TestResult` by `run_test` (runner.py
lines 444-447); absent on the timeout path. -/
structure TestDetails where
  validation : Option ValidationOutcome := none
  exit_code : Option Int := none
deriving DecidableEq, Repr

/-- Dataclass `TestResult` (runner.py lines 82-91); the float `duration` is
carried as an opaque integer value. -/
structure TestResult where
  test_id : String
  name : String
  status : TestStatus
  duration : Int
  output : String := ""
  error : String := ""
  details : TestDetails := {}
deriving DecidableEq, Repr

/-- Dataclass `SuiteResult` (runner.py lines 94-111). -/
structure SuiteResult where
  suite_name : String
  description : String
  tests : List TestResult := []
deriving DecidableEq, Repr

/-- Property `SuiteResult.passed`: count of tests with status `passed`. -/
def SuiteResult.passed (r : SuiteResult) : Nat :=
  r.tests.countP fun t => t.status == TestStatus.passed

/-- Property `SuiteResult.failed`: count of tests with status `failed`. -/
def SuiteResult.failed (r : SuiteResult) : Nat :=
  r.tests.countP fun t => t.status == TestStatus.failed

/-- Property `SuiteResult.total`: number of tests. -/
def SuiteResult.total (r : SuiteResult) : Nat :=
  r.tests.length

/-- The `expect` mapping of a test case as consumed by
`TestCaseValidator.validate`: `success` (checked for being literally
`True`), the two containment lists, and the truthiness of `no_errors` /
`no_crashes`. -/
structure Expect where
  success : Option Bool := none
  output_contains : Option (List String) := none
  output_contains_any : Option (List String) := none
  no_errors : Bool := false
  no_crashes : Bool := false
deriving DecidableEq, Repr

/-- Insert a detail key into the ordered key set (Python dict insertion:
an existing key keeps its position, the value is always `True`). -/
def detInsert (ks : List String) (k : String) : List String :=
  if ks.contains k then ks else ks ++ [k]

/-- The success check of `validate` (runner.py lines 311-315). -/
def successCheck (output err : String) (expect : Expect) : List String :=
  if expect.success = some true then
    if output = "" || strIn "error" err.toLower then
      if strIn "error:" err.toLower || strIn "exception" err.toLower then
        ["Expected success but got error"]
      else []
    else []
  else []

/-- The `output_contains` check (runner.py lines 318-323): per-pattern
failure messages and detail keys, in list order. -/
def outputContainsCheck (combined : String) :
    Option (List String) → List String × List String
  | none => ([], [])
  | some pats =>
    pats.foldl
      (fun acc t =>
        if strIn t.toLower combined then (acc.1, detInsert acc.2 ("contains_" ++ t))
        else (acc.1 ++ ["Output missing expected text: " ++ pyQuote ++ t ++ pyQuote], acc.2))
      ([], [])

/-- The `output_contains_any` check (runner.py lines 326-336): the first
matching pattern sets a detail key and stops the scan; if none matches, one
aggregate failure message is emitted. -/
def outputContainsAnyCheck (combined : String) :
    Option (List String) → List String × List String
  | none => ([], [])
  | some pats =>
    match pats.find? (fun t => strIn t.toLower combined) with
    | some t => ([], ["contains_" ++ t])
    | none => (["Output missing any of: " ++ pyListRepr pats], [])

/-- Match of the regular expression `error` followed by a colon or a
whitespace character, at the head of the character list. -/
def errSepAtHead : List Char → Bool
  | 'e' :: 'r' :: 'r' :: 'o' :: 'r' :: c :: _ =>
    c = ':' || c = ' ' || c = '\t' || c = '\n' || c = '\r' || c = '\x0b' || c = '\x0c'
  | _ => false

/-- `re.search` of `error` followed by a colon or whitespace, anywhere in the
string (runner.py line 350). -/
def hasErrSep : List Char → Bool
  | [] => false
  | c :: rest => errSepAtHead (c :: rest) || hasErrSep rest

/-- The `no_errors` check (runner.py lines 339-352): scan the four error
patterns in order with a break after the first recorded failure; a pattern
only records a failure when it contains `error` (so only `error:` can), the
combined output does not contain `error handling`, and `error` followed by a
colon or whitespace occurs. -/
def noErrorsCheck (combined : String) : List String :=
  (["error:", "exception:", "traceback", "failed:"].foldl
    (fun (acc : List String × Bool) pat =>
      if acc.2 then acc
      else if strIn pat combined then
        if strIn "error" pat && !(strIn "error handling" combined) then
          if hasErrSep combined.data then (acc.1 ++ ["Found error pattern: " ++ pat], true)
          else acc
        else acc
      else acc)
    ([], false)).1

/-- The `no_crashes` check (runner.py lines 355-364): every matching crash
pattern appends a failure (no break). -/
def noCrashesCheck (combined : String) : List String :=
  ["segmentation fault", "core dumped", "fatal error", "panic:"].filterMap
    fun pat => if strIn pat combined then some ("Found crash indicator: " ++ pat) else none

/-- `TestCaseValidator.validate` (runner.py lines 297-370). -/
def validate (output err : String) (expect : Expect) : ValidationOutcome :=
  let combined := (output ++ "\n" ++ err).toLower
  let f1 := successCheck output err expect
  let c2 := outputContainsCheck combined expect.output_contains
  let c3 := outputContainsAnyCheck combined expect.output_contains_any
  let f4 := if expect.no_errors then noErrorsCheck combined else []
  let f5 := if expect.no_crashes then noCrashesCheck combined else []
  let failures := f1 ++ c2.1 ++ c3.1 ++ f4 ++ f5
  { passed := failures.isEmpty, failures := failures, details := c3.2.foldl detInsert c2.2 }

/-- The response dict of `ClaudeCodeRunner.send_prompt` (runner.py lines
249-256); the float `duration` is carried as an opaque integer value. -/
structure SendPromptResponse where
  success : Bool
  output : String
  error : String
  exit_code : Int
  duration : Int
  prompt : String
deriving DecidableEq, Repr

/-- Outcome of the `subprocess.run` call inside `send_prompt` (runner.py
lines 237-286): normal completion with captured stdout/stderr and return
code, expiry of the wall-clock timeout, or any other exception. -/
inductive ProcOutcome where
  | completed (stdout stderr : String) (returncode : Int)
  | timedOut
  | excFailed (msg : String)
deriving DecidableEq, Repr

/-- `ClaudeCodeRunner.send_prompt` (runner.py lines 190-286) as a function of
the subprocess outcome. A timeout returns exit code `-1`, duration equal to
the timeout, and the explanatory error string; any other exception also
returns exit code `-1` with the exception text as error. -/
def send_prompt (prompt : String) (timeout : Nat) (outcome : ProcOutcome)
    (elapsed : Int) : SendPromptResponse :=
  match outcome with
  | .completed out err rc =>
    { success := rc == 0, output := out, error := err, exit_code := rc,
      duration := elapsed, prompt := prompt }
  | .timedOut =>
    { success := false, output := "",
      error := "Command timed out after " ++ toString timeout ++ "s",
      exit_code := -1, duration := (timeout : Int), prompt := prompt }
  | .excFailed msg =>
    { success := false, output := "", error := msg, exit_code := -1,
      duration := elapsed, prompt := prompt }

/-- One test case as consumed by `E2ETestRunner.run_test` (runner.py lines
402-409). -/
structure TestCase where
  id : String
  name : String
  prompt : String
  expect : Expect := {}
  timeout : Option Nat := none
  max_turns : Option Nat := none
deriving DecidableEq, Repr

/-- `E2ETestRunner.run_test` (runner.py lines 402-448) as a function of the
subprocess outcome: a response with exit code `-1` whose error mentions
`timed out` becomes status `timeout`; every other response is validated and
becomes `passed` or `failed`. -/
def run_test (test : TestCase) (defaultTimeout : Nat) (outcome : ProcOutcome)
    (elapsed : Int) : TestResult :=
  let timeout := test.timeout.getD defaultTimeout
  let result := send_prompt test.prompt timeout outcome elapsed
  if result.exit_code == -1 && strIn "timed out" result.error then
    { test_id := test.id, name := test.name, status := TestStatus.timeout,
      duration := result.duration, output := result.output, error := result.error }
  else
    let validation := validate result.output result.error test.expect
    { test_id := test.id, name := test.name,
      status := if validation.passed then TestStatus.passed else TestStatus.failed,
      duration := result.duration, output := result.output, error := result.error,
      details := { validation := some validation, exit_code := some result.exit_code } }

/-- `E2ETestRunner.run_suite` (runner.py lines 450-469) as a function of the
per-test subprocess outcomes: results are appended in declaration order. -/
def run_suite (suite_name description : String) (defaultTimeout : Nat)
    (tests : List (TestCase × ProcOutcome × Int)) : SuiteResult :=
  { suite_name := suite_name, description := description,
    tests := tests.map fun t => run_test t.1 defaultTimeout t.2.1 t.2.2 }

/-- The return value of `E2ETestRunner.print_summary` (runner.py lines
506-555): `total_failed == 0`, where `total_failed` sums the suites'
`failed` properties. -/
def print_summary_ok (results : List SuiteResult) : Bool :=
  (results.map SuiteResult.failed).sum == 0

/-- The process exit code chosen by `main` (runner.py line 663):
`sys.exit(0 if success else 1)` on `print_summary`'s return value. -/
def main_exit (results : List SuiteResult) : Nat :=
  if print_summary_ok results then 0 else 1

/-- A process environment, as a lookup from variable name to value
(Python `os.environ` / the `env` dict). -/
def Env := String → Option String

/-- Python `env[k] = v`. -/
def envSet (e : Env) (k v : String) : Env :=
  fun x => if x = k then some v else e x

/-- Python `del env[k]`. -/
def envDel (e : Env) (k : String) : Env :=
  fun x => if x = k then none else e x

/-- `ClaudeCodeRunner._get_subprocess_env` (runner.py lines 174-188):
copy `os.environ`, set `CLAUDE_CODE_SKIP_OOBE`, and delete
`ANTHROPIC_API_KEY` when OAuth credentials exist and the key is present.
`has_oauth` abstracts `_has_oauth_credentials` (runner.py lines 148-160),
a filesystem check on the credential files. -/
def _get_subprocess_env (has_oauth : Bool) (environ : Env) : Env :=
  let env := envSet environ "CLAUDE_CODE_SKIP_OOBE" "1"
  if has_oauth && (env "ANTHROPIC_API_KEY").isSome then
    envDel env "ANTHROPIC_API_KEY"
  else env

/-- The mutable world state read by `_get_subprocess_env`: the current
process environment and the presence of the OAuth credential files. -/
structure World where
  environ : Env
  has_oauth : Bool

/-- The construction-time state of `ClaudeCodeRunner.__init__` (runner.py
lines 117-128): only these four fields are stored on the instance. -/
structure RunnerInit where
  working_dir : String
  timeout : Nat
  model : String
  verbose : Bool

/-- The subprocess environment built inside one `send_prompt` call:
runner.py line 244 calls `self._get_subprocess_env()`, which reads
`os.environ` (line 181) and the credential files (line 185) at call time;
nothing of the construction-time state enters the computation. -/
def send_prompt_env (_runnerState : RunnerInit) (callTime : World) : Env :=
  _get_subprocess_env callTime.has_oauth callTime.environ

/-- A parent environment that carries an API key. -/
def apiKeyEnv : Env :=
  fun k => if k = "ANTHROPIC_API_KEY" then some "secret" else none

/-- Call-time world without OAuth credential files. -/
def worldNoOauth : World := { environ := apiKeyEnv, has_oauth := false }

/-- Call-time world after OAuth credential files appeared. -/
def worldOauth : World := { environ := apiKeyEnv, has_oauth := true }

/-- A concrete constructed runner instance. -/
def someRunner : RunnerInit :=
  { working_dir := "/w", timeout := 120, model := "claude-sonnet-4-20250514", verbose := false }

/-- A suite whose single test timed out. -/
def timeout_only_suite : SuiteResult :=
  { suite_name := "s", description := "",
    tests := [{ test_id := "t1", name := "n", status := TestStatus.timeout, duration := 0 }] }

/-- A suite whose tests all have status `passed` or `failed`. -/
def mixed_suite : SuiteResult :=
  { suite_name := "m", description := "",
    tests := [{ test_id := "a", name := "a", status := TestStatus.passed, duration := 0 },
              { test_id := "b", name := "b", status := TestStatus.failed, duration := 0 }] }

/-- C3 counterexample: a suite holding one test with status `timeout` has
`total = 1` and `passed = 0`, but `failed = 0`, not `total - passed = 1` —
`failed` counts only status `failed`, it is not derived as total minus
passed. -/
theorem c3_counterexample :
    timeout_only_suite.total = 1 ∧ timeout_only_suite.passed = 0 ∧
    timeout_only_suite.failed = 0 ∧
    ¬ (timeout_only_suite.failed = timeout_only_suite.total - timeout_only_suite.passed) := by
  refine ⟨rfl, rfl, rfl, ?_⟩
  decide

/-- A test whose status is neither `passed` nor `failed`. -/
def otherStatus (t : TestResult) : Bool :=
  !(t.status == TestStatus.passed || t.status == TestStatus.failed)

theorem status_count_split (ts : List TestResult) :
    ts.length = (ts.countP fun t => t.status == TestStatus.passed) +
      (ts.countP fun t => t.status == TestStatus.failed) + ts.countP otherStatus := by
  induction ts with
  | nil => rfl
  | cons t ts ih =>
    rw [List.length_cons, List.countP_cons, List.countP_cons, List.countP_cons, ih]
    cases h : t.status <;> simp [otherStatus, h] <;> omega

/-- C3 (amended): for every `SuiteResult`, `total` splits into the `passed`
count, the `failed` count and the count of tests with any other status, and
`failed = total - passed` holds when (and only because) every test has
status `passed` or `failed`; a non-passing test with status `timeout`,
`error` or `skipped` is counted in `total` but in neither `passed` nor
`failed`. -/
theorem c3_aggregate_counts (s : SuiteResult) :
    s.total = s.passed + s.failed + s.tests.countP otherStatus ∧
    ((s.tests.all fun t => t.status == TestStatus.passed || t.status == TestStatus.failed) = true →
      s.failed = s.total - s.passed) := by
  refine ⟨status_count_split s.tests, fun hall => ?_⟩
  have h0 : s.tests.countP otherStatus = 0 := by
    rw [List.countP_eq_zero]
    intro a ha
    have := List.all_eq_true.mp hall a ha
    simp [otherStatus, this]
  have h1 := status_count_split s.tests
  rw [h0] at h1
  unfold SuiteResult.failed SuiteResult.total SuiteResult.passed
  omega

/-- C3 amendment witness at a concrete suite whose tests all have status
`passed` or `failed`. -/
theorem c3_aggregate_counts_witness :
    ((mixed_suite.tests.all fun t =>
        t.status == TestStatus.passed || t.status == TestStatus.failed) = true) ∧
    mixed_suite.failed = mixed_suite.total - mixed_suite.passed :=
  ⟨by decide, (c3_aggregate_counts mixed_suite).2 (by decide)⟩

/-- The suite results of a whole run in which the single executed test
timed out. -/
def timeout_run_results : List SuiteResult :=
  [run_suite "plugin-suite" "" 120 [({ id := "t1", name := "n", prompt := "p" }, .timedOut, 0)]]

/-- C4 counterexample: a run whose only executed test has final status
`timeout` (so not every executed test passed) still exits with code 0 —
`print_summary` returns `total_failed == 0` and only status `failed` counts
into `total_failed`. -/
theorem c4_counterexample :
    ((timeout_run_results.map fun r => r.tests.map (·.status)) =
      [[TestStatus.timeout]]) ∧
    main_exit timeout_run_results = 0 := by
  constructor
  · decide
  · decide

/-- C4 (amended): the runner CLI exits with code 0 iff no executed test has
final status `failed`; executed tests whose status is `timeout` (or any
other non-`passed`, non-`failed` status) do not make the exit code
non-zero. -/
theorem c4_exit_code_contract (results : List SuiteResult) :
    main_exit results = 0 ↔
      (results.all fun r => r.tests.all fun t => !(t.status == TestStatus.failed)) = true := by
  have h1 : main_exit results = 0 ↔ (results.map SuiteResult.failed).sum = 0 := by
    unfold main_exit print_summary_ok
    by_cases hc : (results.map SuiteResult.failed).sum = 0 <;> simp [hc]
  rw [h1, List.sum_eq_zero_iff]
  simp only [List.mem_map, forall_exists_index, and_imp, forall_apply_eq_imp_iff₂,
    List.all_eq_true, SuiteResult.failed, List.countP_eq_zero]
  constructor
  · intro h r hr t ht
    simpa using h r hr t ht
  · intro h r hr t ht
    simpa using h r hr t ht

/-- C6 counterexample: in the streaming driver `run_claude_prompt`, the
timeout handler returns exit code `1` — identical to the exit code reported
for a really-completed subprocess with return code 1, so not a distinguished
sentinel — and with an empty response text rather than an explanatory error
string. -/
theorem c6_counterexample :
    (SkillTest.run_claude_prompt SkillTest.SkillProcOutcome.timedOut 7).2.2.1 = 1 ∧
    (SkillTest.run_claude_prompt (SkillTest.SkillProcOutcome.completed [] 1) 7).2.2.1 = 1 ∧
    (SkillTest.run_claude_prompt SkillTest.SkillProcOutcome.timedOut 7).1 = "" :=
  ⟨rfl, rfl, rfl⟩

/-- C6 (amended): both drivers return timeout as data rather than raising,
but only the plain-text driver uses a sentinel: `send_prompt` returns exit
code `-1` with the explanatory error string `Command timed out after Ns` and
`success = false`, while the streaming driver `run_claude_prompt` returns
`("", [], 1, elapsed)` — exit code `1`, indistinguishable from a real exit
code 1, with no error string. -/
theorem c6_timeout_outcomes (prompt : String) (timeout : Nat) (elapsed : Int) :
    (send_prompt prompt timeout .timedOut elapsed).exit_code = -1 ∧
    (send_prompt prompt timeout .timedOut elapsed).error =
      "Command timed out after " ++ toString timeout ++ "s" ∧
    (send_prompt prompt timeout .timedOut elapsed).success = false ∧
    SkillTest.run_claude_prompt SkillTest.SkillProcOutcome.timedOut elapsed =
      ("", [], 1, elapsed) :=
  ⟨rfl, rfl, rfl, rfl⟩

/-- C7 counterexample: a subprocess launch failure (the `claude` binary
missing) on a test with empty expectations is recorded with status `passed`:
`run_test` only special-cases responses whose error mentions `timed out` and
otherwise validates the empty output, and an empty expectation dict
validates successfully. -/
theorem c7_counterexample :
    (run_test { id := "t1", name := "n", prompt := "p" } 120
        (.excFailed "No such file or directory: claude") 0).status = TestStatus.passed := by
  decide

/-- C7 (amended): per-test process errors are captured as data, never an
exception: for a launch failure the result's `error` field holds the
exception text and for an abnormal exit it holds the captured stderr, and in
both cases the status is `passed` or `failed` exactly as the validator
judges the captured output against the expectations — never `timeout`, and
with empty expectations the status is `passed`, not an error status. -/
theorem c7_process_error_as_data (test : TestCase) (dt : Nat) (elapsed : Int) :
    (∀ msg : String, strIn "timed out" msg = false →
      (run_test test dt (.excFailed msg) elapsed).error = msg ∧
      (run_test test dt (.excFailed msg) elapsed).status =
        (if (validate "" msg test.expect).passed then TestStatus.passed else TestStatus.failed) ∧
      (run_test test dt (.excFailed msg) elapsed).status ≠ TestStatus.timeout ∧
      (test.expect = {} →
        (run_test test dt (.excFailed msg) elapsed).status = TestStatus.passed)) ∧
    (∀ (out err : String) (rc : Int), ¬ (rc = -1 ∧ strIn "timed out" err = true) →
      (run_test test dt (.completed out err rc) elapsed).error = err ∧
      (run_test test dt (.completed out err rc) elapsed).status =
        (if (validate out err test.expect).passed then TestStatus.passed
         else TestStatus.failed)) := by
  constructor
  · intro msg h
    refine ⟨by simp [run_test, send_prompt, h], by simp [run_test, send_prompt, h], ?_, ?_⟩
    · simp only [run_test, send_prompt, h, Bool.and_false, Bool.false_eq_true, if_false]
      split <;> simp
    · intro he
      simp only [run_test, send_prompt, h, he, Bool.and_false, Bool.false_eq_true, if_false]
      rfl
  · intro out err rc h
    have hcond : (((rc : Int) == -1) && strIn "timed out" err) = false := by
      rcases Bool.eq_false_or_eq_true (strIn "timed out" err) with hs | hs
      · have : ¬ rc = -1 := fun hrc => h ⟨hrc, hs⟩
        simp [this]
      · simp [hs]
    exact ⟨by simp [run_test, send_prompt, hcond], by simp [run_test, send_prompt, hcond]⟩

/-- C7 amendment witness: a concrete launch failure and a concrete abnormal
exit, with their hypotheses discharged at those inputs. -/
theorem c7_process_error_as_data_witness :
    (run_test { id := "t1", name := "n", prompt := "p" } 120 (.excFailed "boom") 0).error =
      "boom" ∧
    (run_test { id := "t1", name := "n", prompt := "p" } 120 (.excFailed "boom") 0).status =
      TestStatus.passed ∧
    (run_test { id := "t1", name := "n", prompt := "p" } 120 (.completed "" "crash" 2) 0).error =
      "crash" := by
  have h := c7_process_error_as_data { id := "t1", name := "n", prompt := "p" } 120 0
  exact ⟨(h.1 "boom" (by decide)).1, (h.1 "boom" (by decide)).2.2.2 rfl,
    (h.2 "" "crash" 2 (by decide)).1⟩

/-- C8: OAuth excludes the API key. When the OAuth credential files exist,
the environment built for the agent subprocess maps `ANTHROPIC_API_KEY` to
nothing, whatever the parent environment held; when they do not exist, the
variable is forwarded from the parent environment unchanged. -/
theorem c8_oauth_excludes_api_key :
    (∀ environ : Env, _get_subprocess_env true environ "ANTHROPIC_API_KEY" = none) ∧
    (∀ environ : Env,
      _get_subprocess_env false environ "ANTHROPIC_API_KEY" = environ "ANTHROPIC_API_KEY") := by
  have hne : ("ANTHROPIC_API_KEY" : String) ≠ "CLAUDE_CODE_SKIP_OOBE" := by decide
  constructor
  · intro environ
    unfold _get_subprocess_env envSet envDel
    cases h : environ "ANTHROPIC_API_KEY" with
    | none => simp [h, hne]
    | some v => simp [h, hne]
  · intro environ
    unfold _get_subprocess_env envSet
    simp [hne]

/-- C9 counterexample: the driver re-reads the environment and the OAuth
credential state on every `send_prompt` call. On one constructed instance,
a call made while no OAuth credentials exist forwards the parent API key,
and a later call made after the credential files appeared builds a different
subprocess environment with the key removed — not a construction-time
snapshot. -/
theorem c9_counterexample :
    send_prompt_env someRunner worldNoOauth "ANTHROPIC_API_KEY" = some "secret" ∧
    send_prompt_env someRunner worldOauth "ANTHROPIC_API_KEY" = none ∧
    send_prompt_env someRunner worldNoOauth "ANTHROPIC_API_KEY" ≠
      send_prompt_env someRunner worldOauth "ANTHROPIC_API_KEY" := by
  refine ⟨rfl, rfl, ?_⟩
  intro h
  have h1 : (some "secret" : Option String) = none := h
  exact Option.noConfusion h1

/-- C9 (amended): the environment and the OAuth-vs-API-key decision are
re-evaluated on every `send_prompt` call from the call-time process state;
the construction-time state (working dir, timeout, model, verbose) does not
enter the subprocess environment at all, so the environment built by a call
depends only on the call-time environment and credential-file state — two
calls agree when that state agrees, and may differ when it changed between
the calls. -/
theorem c9_env_read_per_call :
    (∀ (r₁ r₂ : RunnerInit) (w : World), send_prompt_env r₁ w = send_prompt_env r₂ w) ∧
    (∀ (r : RunnerInit) (w₁ w₂ : World), w₁.environ = w₂.environ →
      w₁.has_oauth = w₂.has_oauth → send_prompt_env r w₁ = send_prompt_env r w₂) := by
  refine ⟨fun r₁ r₂ w => rfl, fun r w₁ w₂ he ho => ?_⟩
  unfold send_prompt_env
  rw [he, ho]

/-- C9 amendment witness at two concrete worlds with equal state. -/
theorem c9_env_read_per_call_witness :
    send_prompt_env someRunner worldOauth = send_prompt_env someRunner worldOauth :=
  (c9_env_read_per_call).2 someRunner worldOauth worldOauth rfl rfl

end E2E
